import Mathlib

/-!
Verification of the Cartesian motion controller
(`cartesian_motion_controller/cartesian_motion_controller.hpp`).

Scalars are modelled as exact rationals (`ℚ`).  The controller's own logic
(error computation, clamping, callbacks, update loop) is embedded line by
line from the source.  The external math library primitives the source
calls (`KDL::Rotation::GetRotAngle`, `KDL::Vector::Normalize`,
`tf::Quaternion::setRPY`) compute square roots and trigonometric functions,
so they cannot be exact rational functions; following the specification's
"Pose/Orientation Math" contract (section 4.1) they are passed in as
parameters constrained by the properties the specification states for
them.  Everything rational (matrix algebra, quaternion algebra, clamping,
the callbacks, the update loop) is embedded concretely.
-/

/-- A 3D vector, as `KDL::Vector` (three coordinates). -/
structure Vec3 where
  x : ℚ
  y : ℚ
  z : ℚ
deriving DecidableEq, Repr

namespace Vec3

def zero : Vec3 := ⟨0, 0, 0⟩

def add (a b : Vec3) : Vec3 := ⟨a.x + b.x, a.y + b.y, a.z + b.z⟩

def sub (a b : Vec3) : Vec3 := ⟨a.x - b.x, a.y - b.y, a.z - b.z⟩

/-- `v * c`, as `KDL::Vector::operator*(double)`. -/
def smul (a : Vec3) (c : ℚ) : Vec3 := ⟨a.x * c, a.y * c, a.z * c⟩

/-- Squared Euclidean norm.  `normSq v ≤ r ^ 2` expresses `|v| ≤ r`
without leaving the rationals. -/
def normSq (a : Vec3) : ℚ := a.x * a.x + a.y * a.y + a.z * a.z

end Vec3

/-- A 3x3 rotation matrix, stored row major like `KDL::Rotation::data[9]`:
`d0 d1 d2` is the first row, `d3 d4 d5` the second, `d6 d7 d8` the third. -/
structure Rot where
  d0 : ℚ
  d1 : ℚ
  d2 : ℚ
  d3 : ℚ
  d4 : ℚ
  d5 : ℚ
  d6 : ℚ
  d7 : ℚ
  d8 : ℚ
deriving DecidableEq, Repr

namespace Rot

/-- `KDL::Rotation::Identity()`. -/
def id : Rot := ⟨1, 0, 0, 0, 1, 0, 0, 0, 1⟩

/-- Row-major matrix product, as `KDL::Rotation::operator*`. -/
def mul (a b : Rot) : Rot :=
  ⟨a.d0 * b.d0 + a.d1 * b.d3 + a.d2 * b.d6,
   a.d0 * b.d1 + a.d1 * b.d4 + a.d2 * b.d7,
   a.d0 * b.d2 + a.d1 * b.d5 + a.d2 * b.d8,
   a.d3 * b.d0 + a.d4 * b.d3 + a.d5 * b.d6,
   a.d3 * b.d1 + a.d4 * b.d4 + a.d5 * b.d7,
   a.d3 * b.d2 + a.d4 * b.d5 + a.d5 * b.d8,
   a.d6 * b.d0 + a.d7 * b.d3 + a.d8 * b.d6,
   a.d6 * b.d1 + a.d7 * b.d4 + a.d8 * b.d7,
   a.d6 * b.d2 + a.d7 * b.d5 + a.d8 * b.d8⟩

/-- `KDL::Rotation::Inverse()` is the transpose (exact algebraic inverse
for orthonormal matrices, which is how the source uses it). -/
def transpose (a : Rot) : Rot :=
  ⟨a.d0, a.d3, a.d6, a.d1, a.d4, a.d7, a.d2, a.d5, a.d8⟩

/-- Determinant of the 3x3 matrix. -/
def det (a : Rot) : ℚ :=
  a.d0 * (a.d4 * a.d8 - a.d5 * a.d7)
  - a.d1 * (a.d3 * a.d8 - a.d5 * a.d6)
  + a.d2 * (a.d3 * a.d7 - a.d4 * a.d6)

/-- A valid rotation: orthonormal (`M * Mᵀ = I`) with determinant `+1`. -/
def isValidRotation (a : Rot) : Prop :=
  mul a (transpose a) = id ∧ det a = 1

instance (a : Rot) : Decidable (isValidRotation a) := by
  unfold isValidRotation; infer_instance

/-- `KDL::Rotation::Quaternion(x,y,z,w)`: the rotation matrix built from a
quaternion.  The KDL formula assumes a unit quaternion and performs no
normalization. -/
def ofQuaternion (x y z w : ℚ) : Rot :=
  ⟨w * w + x * x - y * y - z * z, 2 * x * y - 2 * w * z, 2 * x * z + 2 * w * y,
   2 * x * y + 2 * w * z, w * w - x * x + y * y - z * z, 2 * y * z - 2 * w * x,
   2 * x * z - 2 * w * y, 2 * y * z + 2 * w * x, w * w - x * x - y * y + z * z⟩

end Rot

/-- A pose, as `KDL::Frame`: rotation `M` and position `p`. -/
structure Frame where
  M : Rot
  p : Vec3
deriving DecidableEq, Repr

/-- A quaternion, as `tf::Quaternion` (x, y, z imaginary parts, w real). -/
structure Quat where
  x : ℚ
  y : ℚ
  z : ℚ
  w : ℚ
deriving DecidableEq, Repr

namespace Quat

def one : Quat := ⟨0, 0, 0, 1⟩

/-- Hamilton product, as `tf::Quaternion::operator*`. -/
def mul (a b : Quat) : Quat :=
  ⟨a.w * b.x + a.x * b.w + a.y * b.z - a.z * b.y,
   a.w * b.y + a.y * b.w + a.z * b.x - a.x * b.z,
   a.w * b.z + a.z * b.w + a.x * b.y - a.y * b.x,
   a.w * b.w - a.x * b.x - a.y * b.y - a.z * b.z⟩

/-- Squared quaternion norm. -/
def normSq (a : Quat) : ℚ := a.x * a.x + a.y * a.y + a.z * a.z + a.w * a.w

end Quat

/-- `boost::algorithm::clamp(v, lo, hi)`: `v < lo ? lo : hi < v ? hi : v`. -/
def clamp (v lo hi : ℚ) : ℚ :=
  if v < lo then lo else if hi < v then hi else v

/-- The 6D error vector `ctrl::Vector6D`: indices 0..2 translation,
3..5 rotation, exactly as `computeMotionError` assigns them. -/
structure Vector6 where
  e0 : ℚ
  e1 : ℚ
  e2 : ℚ
  e3 : ℚ
  e4 : ℚ
  e5 : ℚ
deriving DecidableEq, Repr

namespace Vector6

def zero : Vector6 := ⟨0, 0, 0, 0, 0, 0⟩

/-- Components 0..2: the translation part. -/
def transPart (e : Vector6) : Vec3 := ⟨e.e0, e.e1, e.e2⟩

/-- Components 3..5: the rotation part. -/
def rotPart (e : Vector6) : Vec3 := ⟨e.e3, e.e4, e.e5⟩

end Vector6

/-- Modelled from the spec: the contract of `axisAngle` from section 4.1,
standing in for `KDL::Rotation::GetRotAngle` whose implementation (an
external library computing `acos` and square roots) is not under `src/`.
The spec requires the returned angle to be a scalar in `[0, π)` extracted
from the rotation, the axis to be a unit vector, and the near-identity
case to yield a zero rotation-error vector without division by zero.
We keep the rationally satisfiable part: the angle is nonnegative, the
axis has norm at most one, and an exact identity input yields angle 0. -/
def AxisAngleContract (aa : Rot → Vec3 × ℚ) : Prop :=
  ∀ M : Rot, 0 ≤ (aa M).2 ∧ Vec3.normSq (aa M).1 ≤ 1 ∧
    (M = Rot.id → (aa M).2 = 0)

/-- Modelled from the spec: the contract of `normalize` from section 4.1,
standing in for `KDL::Vector::Normalize` whose implementation (an external
library computing a square root) is not under `src/`.  The spec requires
`normalize(vector) -> (unit vector, magnitude)` with the zero-vector case
returning a zero result rather than failing.  We keep the rationally
satisfiable part: the magnitude is nonnegative, the direction has norm at
most one, and the zero vector yields magnitude 0. -/
def NormalizeContract (nrm : Vec3 → Vec3 × ℚ) : Prop :=
  ∀ v : Vec3, 0 ≤ (nrm v).2 ∧ Vec3.normSq (nrm v).1 ≤ 1 ∧
    (v = Vec3.zero → (nrm v).2 = 0)

/-- The pure core of `computeMotionError` (source lines 148-190), embedded
statement by statement.  `aa` and `nrm` stand for the external axis-angle
extraction and vector normalization; `current` is the pose the forward
dynamics solver reports, `target` is `m_target_frame`. -/
def computeMotionErrorVec (aa : Rot → Vec3 × ℚ) (nrm : Vec3 → Vec3 × ℚ)
    (current target : Frame) : Vector6 :=
  -- error_kdl.M = m_target_frame.M * m_current_frame.M.Inverse();
  let errM := Rot.mul target.M (Rot.transpose current.M)
  -- error_kdl.p = m_target_frame.p - m_current_frame.p;
  let errP := Vec3.sub target.p current.p
  -- double angle = error_kdl.M.GetRotAngle(rot_axis);
  let rot_axis := (aa errM).1
  let angle0 := (aa errM).2
  -- double distance = error_kdl.p.Normalize();  (p becomes the direction)
  let dir := (nrm errP).1
  let distance0 := (nrm errP).2
  -- const double max_angle = 1.0; const double max_distance = 1.0;
  let max_angle : ℚ := 1
  let max_distance : ℚ := 1
  -- angle = boost::algorithm::clamp(angle,-max_angle,max_angle);
  let angle := clamp angle0 (-max_angle) max_angle
  let distance := clamp distance0 (-max_distance) max_distance
  -- rot_axis = rot_axis * angle;  error_kdl.p = error_kdl.p * distance;
  let rot_scaled := Vec3.smul rot_axis angle
  let p_scaled := Vec3.smul dir distance
  -- error(0..2) = p; error(3..5) = rot_axis;
  ⟨p_scaled.x, p_scaled.y, p_scaled.z, rot_scaled.x, rot_scaled.y, rot_scaled.z⟩

/-- Modelled from the spec: the Motion Error Computer algorithm as section
4.2 words it, steps 1 through 6, for comparison with the embedded source
function.  `inverse` on a rotation is the transpose (exact algebraic
inverse of an orthonormal matrix). -/
def specMotionError (axisAngle : Rot → Vec3 × ℚ) (normalize : Vec3 → Vec3 × ℚ)
    (current target : Frame) : Vector6 :=
  -- step 1: error_rotation = target.rotation * inverse(current.rotation)
  let error_rotation := Rot.mul target.M (Rot.transpose current.M)
  -- step 2: error_translation = target.position - current.position
  let error_translation := Vec3.sub target.p current.p
  -- step 3: extract (axis, angle) and (direction, distance)
  let axis := (axisAngle error_rotation).1
  let angle := (axisAngle error_rotation).2
  let direction := (normalize error_translation).1
  let distance := (normalize error_translation).2
  -- step 4: clamp to the default bounds 1.0 and 1.0
  let angleClamped := clamp angle (-1) 1
  let distanceClamped := clamp distance (-1) 1
  -- step 5: scale
  let rotation_error_vec := Vec3.smul axis angleClamped
  let translation_error_vec := Vec3.smul direction distanceClamped
  -- step 6: emit [translation_error_vec, rotation_error_vec]
  ⟨translation_error_vec.x, translation_error_vec.y, translation_error_vec.z,
   rotation_error_vec.x, rotation_error_vec.y, rotation_error_vec.z⟩

/-- `geometry_msgs::Pose`: position plus quaternion orientation. -/
structure PoseMsg where
  px : ℚ
  py : ℚ
  pz : ℚ
  qx : ℚ
  qy : ℚ
  qz : ℚ
  qw : ℚ
deriving DecidableEq, Repr

/-- `geometry_msgs::PoseStamped`: header (frame id and stamp) plus pose. -/
structure PoseStampedMsg where
  frame_id : String
  stamp : ℚ
  pose : PoseMsg
deriving DecidableEq, Repr

/-- `geometry_msgs::Twist`: linear and angular velocity components. -/
structure TwistMsg where
  lx : ℚ
  ly : ℚ
  lz : ℚ
  ax : ℚ
  ay : ℚ
  az : ℚ
deriving DecidableEq, Repr

/-- The `KDL::Frame` the callbacks build from a `geometry_msgs::Pose`:
`KDL::Frame(KDL::Rotation::Quaternion(qx,qy,qz,qw), KDL::Vector(px,py,pz))`. -/
def Frame.ofPoseMsg (m : PoseMsg) : Frame :=
  ⟨Rot.ofQuaternion m.qx m.qy m.qz m.qw, ⟨m.px, m.py, m.pz⟩⟩

/-- `targetFrameCallback` (source lines 192-214).  Takes the configured
`Base::m_robot_base_link`, the incoming message and the current
`m_target_frame`; returns the new `m_target_frame` together with whether
the rate-limited warning was emitted (the early-return branch). -/
def targetFrameCallback (robot_base_link : String) (target : PoseStampedMsg)
    (m_target_frame : Frame) : Frame × Bool :=
  -- if (target.header.frame_id != Base::m_robot_base_link) { warn; return; }
  if target.frame_id ≠ robot_base_link then
    (m_target_frame, true)
  else
    (Frame.ofPoseMsg target.pose, false)

/-- `tf::Quaternion::setRPY(roll, pitch, yaw)`, with the library's cosine
and sine passed in as parameters `c` and `s` (they are transcendental, so
they cannot be exact rational functions). -/
def setRPY (c s : ℚ → ℚ) (roll pitch yaw : ℚ) : Quat :=
  let halfYaw := yaw * (1 / 2)
  let halfPitch := pitch * (1 / 2)
  let halfRoll := roll * (1 / 2)
  let cosYaw := c halfYaw
  let sinYaw := s halfYaw
  let cosPitch := c halfPitch
  let sinPitch := s halfPitch
  let cosRoll := c halfRoll
  let sinRoll := s halfRoll
  ⟨sinRoll * cosPitch * cosYaw - cosRoll * sinPitch * sinYaw,
   cosRoll * sinPitch * cosYaw + sinRoll * cosPitch * sinYaw,
   cosRoll * cosPitch * sinYaw - sinRoll * sinPitch * cosYaw,
   cosRoll * cosPitch * cosYaw + sinRoll * sinPitch * sinYaw⟩

/-- `targetTwistCallback` (source lines 216-252).  `current_pose` is the
last published current-pose snapshot (`current_pose.pose` in the source);
`c` and `s` are the cosine and sine used by `setRPY`.  Returns the new
`m_target_frame`. -/
def targetTwistCallback (c s : ℚ → ℚ) (current_pose : PoseMsg)
    (twist : TwistMsg) : Frame :=
  -- geometry_msgs::Pose target = current_pose.pose;
  -- target.position.{x,y,z} += twist.linear.{x,y,z};
  let posx := current_pose.px + twist.lx
  let posy := current_pose.py + twist.ly
  let posz := current_pose.pz + twist.lz
  -- tf::quaternionMsgToTF(target.orientation, temp1);
  let temp1 : Quat := ⟨current_pose.qx, current_pose.qy, current_pose.qz,
                       current_pose.qw⟩
  -- temp2.setRPY(twist.angular.x, twist.angular.y, twist.angular.z);
  let temp2 := setRPY c s twist.ax twist.ay twist.az
  -- quaternionTFToMsg(temp2*temp1, target.orientation);
  let q := Quat.mul temp2 temp1
  -- m_target_frame = KDL::Frame(KDL::Rotation::Quaternion(...), KDL::Vector(...));
  ⟨Rot.ofQuaternion q.x q.y q.z q.w, ⟨posx, posy, posz⟩⟩

/-- The controller state the embedded member functions touch.
`solverPose` is what `Base::m_forward_dynamics_solver.getEndEffectorPose()`
returns (the solver itself is an external collaborator); `now` is
`ros::Time::now()`; `published` collects the messages sent on the
`current_pose` publisher. -/
structure CtrlState where
  solverPose : Frame
  m_current_frame : Frame
  m_target_frame : Frame
  current_pose : PoseStampedMsg
  now : ℚ
  published : List PoseStampedMsg
deriving DecidableEq, Repr

/-- `starting` (source lines 91-101): `Base::starting` resets the solver's
internal model from the real joint state (external, leaving `solverPose`
as the pose reported after that reset), then
`m_current_frame = getEndEffectorPose(); m_target_frame = m_current_frame;`. -/
def starting (st : CtrlState) : CtrlState :=
  { st with m_current_frame := st.solverPose,
            m_target_frame := st.solverPose }

/-- `computeMotionError` with its state effects (source lines 148-190):
re-samples `m_current_frame` from the solver, stamps and publishes the
current-pose snapshot (`poseToMsg` stands for `tf::poseKDLToMsg`, an
external conversion), then computes the pure error from the sampled
current pose and `m_target_frame`. -/
def computeMotionErrorS (aa : Rot → Vec3 × ℚ) (nrm : Vec3 → Vec3 × ℚ)
    (poseToMsg : Frame → PoseMsg) (st : CtrlState) : Vector6 × CtrlState :=
  -- m_current_frame = Base::m_forward_dynamics_solver.getEndEffectorPose();
  let cur := st.solverPose
  -- current_pose.header.stamp = ros::Time::now();
  -- tf::poseKDLToMsg(m_current_frame, current_pose.pose);
  let snapshot : PoseStampedMsg :=
    { st.current_pose with stamp := st.now, pose := poseToMsg cur }
  -- current_frame_pub.publish(current_pose);
  let st2 : CtrlState :=
    { st with m_current_frame := cur,
              current_pose := snapshot,
              published := st.published ++ [snapshot] }
  (computeMotionErrorVec aa nrm cur st.m_target_frame, st2)

/-- One observable step of an `update` call: an internal iteration
(feeding an error vector to the forward dynamics step with an internal
period) or the single write of the joint command to the hardware
interface. -/
inductive CycleEvent where
  | iterate (error : Vector6) (dt : ℚ) : CycleEvent
  | write : CycleEvent
deriving DecidableEq, Repr

namespace CycleEvent

def isIterate : CycleEvent → Bool
  | iterate _ _ => true
  | write => false

def isWrite : CycleEvent → Bool
  | iterate _ _ => false
  | write => true

/-- Every internal iteration uses the fixed internal period 0.02 s (1/50). -/
def dtIsInternal : CycleEvent → Bool
  | iterate _ dt => decide (dt = 1 / 50)
  | write => true

end CycleEvent

/-- The `for (int i = 0; i < Base::m_iterations; ++i)` loop body of the
generic `update` (source lines 109-146), iterated `n` times over an
abstract solver state `S`.  `pose` is `getEndEffectorPose` and `step` is
`Base::computeJointControlCmds(error, internal_period)` advancing the
solver's internal model (both external collaborators).  Returns the final
solver state and the trace of iterations. -/
def updateIterations {S : Type} (aa : Rot → Vec3 × ℚ) (nrm : Vec3 → Vec3 × ℚ)
    (pose : S → Frame) (step : S → Vector6 → ℚ → S) (target : Frame) :
    ℕ → S → S × List CycleEvent
  | 0, s => (s, [])
  | n + 1, s =>
    -- ros::Duration internal_period(0.02);
    let internal_period : ℚ := 1 / 50
    -- ctrl::Vector6D error = computeMotionError();
    let error := computeMotionErrorVec aa nrm (pose s) target
    -- Base::computeJointControlCmds(error, internal_period);
    let s2 := step s error internal_period
    let rest := updateIterations aa nrm pose step target n s2
    (rest.1, CycleEvent.iterate error internal_period :: rest.2)

/-- The generic `update` (source lines 109-146): `m_iterations` internal
iterations, then `Base::writeJointControlCmds()` once. -/
def update {S : Type} (aa : Rot → Vec3 × ℚ) (nrm : Vec3 → Vec3 × ℚ)
    (pose : S → Frame) (step : S → Vector6 → ℚ → S) (target : Frame)
    (m_iterations : ℕ) (s : S) : S × List CycleEvent :=
  let loop := updateIterations aa nrm pose step target m_iterations s
  (loop.1, loop.2 ++ [CycleEvent.write])

/-- The `VelocityJointInterface` specialization of `update` (source lines
131-146): exactly one internal step with the same fixed internal period,
then `Base::writeJointControlCmds()` once. -/
def updateVelocity {S : Type} (aa : Rot → Vec3 × ℚ) (nrm : Vec3 → Vec3 × ℚ)
    (pose : S → Frame) (step : S → Vector6 → ℚ → S) (target : Frame)
    (s : S) : S × List CycleEvent :=
  -- ros::Duration internal_period(0.02);
  let internal_period : ℚ := 1 / 50
  -- ctrl::Vector6D error = computeMotionError();
  let error := computeMotionErrorVec aa nrm (pose s) target
  -- Base::computeJointControlCmds(error, internal_period);
  let s2 := step s error internal_period
  (s2, [CycleEvent.iterate error internal_period, CycleEvent.write])

/-! ## Helper lemmas and concrete instances -/

/-- A trivial axis-angle extractor satisfying the section 4.1 contract,
used to instantiate contract hypotheses at concrete inputs. -/
def aaZero : Rot → Vec3 × ℚ := fun _ => (Vec3.zero, 0)

/-- A trivial normalization satisfying the section 4.1 contract, used to
instantiate contract hypotheses at concrete inputs. -/
def nrmZero : Vec3 → Vec3 × ℚ := fun _ => (Vec3.zero, 0)

lemma aaZero_contract : AxisAngleContract aaZero := by
  intro M
  refine ⟨le_refl 0, ?_, fun _ => rfl⟩
  simp [aaZero, Vec3.normSq, Vec3.zero]

lemma nrmZero_contract : NormalizeContract nrmZero := by
  intro v
  refine ⟨le_refl 0, ?_, fun _ => rfl⟩
  simp [nrmZero, Vec3.normSq, Vec3.zero]

lemma clamp_unit_mem (v : ℚ) : -1 ≤ clamp v (-1) 1 ∧ clamp v (-1) 1 ≤ 1 := by
  unfold clamp
  split_ifs with h1 h2 <;> constructor <;> linarith

lemma clamp_zero_unit : clamp 0 (-1) 1 = 0 := by norm_num [clamp]

lemma Vec3.normSq_nonneg (v : Vec3) : 0 ≤ Vec3.normSq v := by
  unfold Vec3.normSq
  linarith [mul_self_nonneg v.x, mul_self_nonneg v.y, mul_self_nonneg v.z]

lemma Vec3.smul_zero_eq (v : Vec3) : Vec3.smul v 0 = Vec3.zero := by
  simp [Vec3.smul, Vec3.zero]

lemma Vec3.normSq_smul_le_one (v : Vec3) (c : ℚ) (hv : Vec3.normSq v ≤ 1)
    (hc1 : -1 ≤ c) (hc2 : c ≤ 1) : Vec3.normSq (Vec3.smul v c) ≤ 1 := by
  have h0 : 0 ≤ Vec3.normSq v := Vec3.normSq_nonneg v
  have hs : Vec3.normSq (Vec3.smul v c) = Vec3.normSq v * (c * c) := by
    simp only [Vec3.smul, Vec3.normSq]; ring
  rw [hs]
  nlinarith

/-- The translation part of the emitted error, characterized. -/
lemma transPart_motionError (aa : Rot → Vec3 × ℚ) (nrm : Vec3 → Vec3 × ℚ)
    (current target : Frame) :
    Vector6.transPart (computeMotionErrorVec aa nrm current target) =
      Vec3.smul (nrm (Vec3.sub target.p current.p)).1
        (clamp (nrm (Vec3.sub target.p current.p)).2 (-1) 1) := rfl

/-- The rotation part of the emitted error, characterized. -/
lemma rotPart_motionError (aa : Rot → Vec3 × ℚ) (nrm : Vec3 → Vec3 × ℚ)
    (current target : Frame) :
    Vector6.rotPart (computeMotionErrorVec aa nrm current target) =
      Vec3.smul (aa (Rot.mul target.M (Rot.transpose current.M))).1
        (clamp (aa (Rot.mul target.M (Rot.transpose current.M))).2 (-1) 1) := rfl

/-- The rotation matrix KDL builds from a unit quaternion is orthonormal
with determinant one. -/
lemma ofQuaternion_valid (x y z w : ℚ) (h : x * x + y * y + z * z + w * w = 1) :
    Rot.isValidRotation (Rot.ofQuaternion x y z w) := by
  constructor
  · simp only [Rot.ofQuaternion, Rot.mul, Rot.transpose, Rot.id, Rot.mk.injEq]
    refine ⟨?_, ?_, ?_, ?_, ?_, ?_, ?_, ?_, ?_⟩ <;>
      first
        | ring1
        | linear_combination (x * x + y * y + z * z + w * w + 1) * h
  · simp only [Rot.ofQuaternion, Rot.det]
    linear_combination
      ((x * x + y * y + z * z + w * w) * (x * x + y * y + z * z + w * w)
        + (x * x + y * y + z * z + w * w) + 1) * h

lemma updateIterations_trace {S : Type} (aa : Rot → Vec3 × ℚ)
    (nrm : Vec3 → Vec3 × ℚ) (pose : S → Frame) (step : S → Vector6 → ℚ → S)
    (target : Frame) (n : ℕ) (s : S) :
    (updateIterations aa nrm pose step target n s).2.length = n ∧
    (updateIterations aa nrm pose step target n s).2.all CycleEvent.isIterate = true ∧
    (updateIterations aa nrm pose step target n s).2.all CycleEvent.dtIsInternal = true := by
  induction n generalizing s with
  | zero => simp [updateIterations]
  | succ m ih =>
    have ihs := ih (step s (computeMotionErrorVec aa nrm (pose s) target) (1 / 50))
    simp_all [updateIterations, CycleEvent.isIterate, CycleEvent.dtIsInternal]

lemma countP_isWrite_zero_of_all_iterate (l : List CycleEvent)
    (hl : l.all CycleEvent.isIterate = true) :
    l.countP CycleEvent.isWrite = 0 := by
  induction l with
  | nil => rfl
  | cons e t ih =>
    rw [List.all_cons, Bool.and_eq_true] at hl
    cases e with
    | iterate err dt =>
      rw [List.countP_cons_of_neg _ _ (by simp [CycleEvent.isWrite])]
      exact ih hl.2
    | write => simp [CycleEvent.isIterate] at hl

/-! ## Concrete fixtures for witnesses -/

/-- A rational orthonormal rotation (rotation about z with cosine 3/5). -/
def rot35 : Rot := ⟨3/5, -4/5, 0, 4/5, 3/5, 0, 0, 0, 1⟩

def frameA : Frame := ⟨Rot.id, Vec3.zero⟩

def frameB : Frame := ⟨Rot.id, ⟨1/2, 0, 0⟩⟩

def frameC : Frame := ⟨rot35, ⟨1, 2, 3⟩⟩

def frameD : Frame := ⟨rot35, ⟨4, 5, 6⟩⟩

def frameE : Frame := ⟨Rot.id, ⟨1, 2, 3⟩⟩

/-- A cosine standing in with value 1 at 0 (all the contract the concrete
instances need). -/
def cOne : ℚ → ℚ := fun _ => 1

/-- A sine standing in with value 0 at 0. -/
def sZero : ℚ → ℚ := fun _ => 0

/-- Pose message at the origin with identity orientation. -/
def poseMsgId : PoseMsg := ⟨0, 0, 0, 0, 0, 0, 1⟩

/-- A trivial `tf::poseKDLToMsg` stand-in for concrete states. -/
def ptmZero : Frame → PoseMsg := fun _ => poseMsgId

def msgWrongFrame : PoseStampedMsg := ⟨"tool0", 0, ⟨1, 2, 3, 0, 0, 0, 1⟩⟩

def msgRightFrame : PoseStampedMsg := ⟨"base_link", 0, ⟨1, 2, 3, 0, 0, 0, 1⟩⟩

/-- A pose message whose orientation quaternion is not unit (norm 2). -/
def msgBadQuat : PoseStampedMsg := ⟨"base_link", 0, ⟨0, 0, 0, 0, 0, 0, 2⟩⟩

/-- A pose message with a unit orientation quaternion. -/
def msgUnitQuat : PoseStampedMsg := ⟨"base_link", 0, ⟨0, 0, 0, 3/5, 0, 0, 4/5⟩⟩

/-- A snapshot with a unit orientation quaternion. -/
def snapUnit : PoseMsg := ⟨0, 0, 0, 3/5, 0, 0, 4/5⟩

def twistZero : TwistMsg := ⟨0, 0, 0, 0, 0, 0⟩

/-- The twist (dx=1, dy=0, dz=0, angular=0) of the specification's
twist-accumulation test. -/
def twistX : TwistMsg := ⟨1, 0, 0, 0, 0, 0⟩

def stateA : CtrlState := ⟨frameC, frameA, frameB, ⟨"alpha", 0, poseMsgId⟩, 0, []⟩

/-- Same solver pose and target as `stateA`, every other field different. -/
def stateB : CtrlState :=
  ⟨frameC, frameD, frameB, ⟨"beta", 7, ⟨9, 9, 9, 0, 0, 0, 1⟩⟩, 3,
   [⟨"gamma", 1, poseMsgId⟩]⟩

def stateC : CtrlState := ⟨frameC, frameA, frameB, ⟨"alpha", 0, poseMsgId⟩, 2, []⟩

lemma Vector6.eq_zero_of_parts (v : Vector6)
    (h1 : Vector6.transPart v = Vec3.zero) (h2 : Vector6.rotPart v = Vec3.zero) :
    v = Vector6.zero := by
  cases v
  simp only [Vector6.transPart, Vector6.rotPart, Vec3.zero, Vec3.mk.injEq] at h1 h2
  simp [Vector6.zero, h1.1, h1.2.1, h1.2.2, h2.1, h2.2.1, h2.2.2]

/-- If the relative rotation is the exact identity and the relative
translation is the exact zero vector, the emitted error is zero. -/
lemma motionErrorVec_eq_zero (aa : Rot → Vec3 × ℚ) (nrm : Vec3 → Vec3 × ℚ)
    (ha : AxisAngleContract aa) (hn : NormalizeContract nrm)
    (current target : Frame)
    (hM : Rot.mul target.M (Rot.transpose current.M) = Rot.id)
    (hp : Vec3.sub target.p current.p = Vec3.zero) :
    computeMotionErrorVec aa nrm current target = Vector6.zero := by
  refine Vector6.eq_zero_of_parts _ ?_ ?_
  · rw [transPart_motionError, (hn _).2.2 hp, clamp_zero_unit, Vec3.smul_zero_eq]
  · rw [rotPart_motionError, (ha _).2.2 hM, clamp_zero_unit, Vec3.smul_zero_eq]

/-! ## Claim theorems -/

/-- C1: for every current and target pose, `computeMotionError` forms the
error rotation as `target.M * inverse(current.M)` and the error
translation as `target.p - current.p`, and emits the 6D vector whose
first three components are the translation direction scaled by the
clamped distance and whose last three components are the rotation axis
scaled by the clamped angle — exactly the Motion Error Computer
algorithm, steps 1 through 6, of specification section 4.2. -/
theorem motionError_refines_spec (aa : Rot → Vec3 × ℚ) (nrm : Vec3 → Vec3 × ℚ)
    (current target : Frame) :
    computeMotionErrorVec aa nrm current target =
      specMotionError aa nrm current target := rfl

/-- C2: for any pair of input poses (and any axis-angle extraction and
normalization meeting the section 4.1 contract), the translation part of
the emitted error is the direction scaled by the distance clamped to
`[-1, 1]` and the rotation part is the axis scaled by the angle clamped
to `[-1, 1]` (the default bounds `max_angle = max_distance = 1.0`), and
both parts have magnitude at most 1 (squared norm at most 1). -/
theorem motionError_bounded (aa : Rot → Vec3 × ℚ) (nrm : Vec3 → Vec3 × ℚ)
    (ha : AxisAngleContract aa) (hn : NormalizeContract nrm)
    (current target : Frame) :
    Vector6.transPart (computeMotionErrorVec aa nrm current target) =
      Vec3.smul (nrm (Vec3.sub target.p current.p)).1
        (clamp (nrm (Vec3.sub target.p current.p)).2 (-1) 1) ∧
    Vector6.rotPart (computeMotionErrorVec aa nrm current target) =
      Vec3.smul (aa (Rot.mul target.M (Rot.transpose current.M))).1
        (clamp (aa (Rot.mul target.M (Rot.transpose current.M))).2 (-1) 1) ∧
    Vec3.normSq (Vector6.transPart (computeMotionErrorVec aa nrm current target)) ≤ 1 ∧
    Vec3.normSq (Vector6.rotPart (computeMotionErrorVec aa nrm current target)) ≤ 1 := by
  obtain ⟨-, hd1, -⟩ := hn (Vec3.sub target.p current.p)
  obtain ⟨-, ha1, -⟩ := ha (Rot.mul target.M (Rot.transpose current.M))
  obtain ⟨hc1, hc2⟩ := clamp_unit_mem (nrm (Vec3.sub target.p current.p)).2
  obtain ⟨hc3, hc4⟩ := clamp_unit_mem (aa (Rot.mul target.M (Rot.transpose current.M))).2
  refine ⟨rfl, rfl, ?_, ?_⟩
  · rw [transPart_motionError]
    exact Vec3.normSq_smul_le_one _ _ hd1 hc1 hc2
  · rw [rotPart_motionError]
    exact Vec3.normSq_smul_le_one _ _ ha1 hc3 hc4

/-- Witness for C2: the bounds evaluated at concrete extractors and poses. -/
theorem motionError_bounded_witness :
    Vec3.normSq (Vector6.transPart (computeMotionErrorVec aaZero nrmZero frameA frameB)) ≤ 1 ∧
    Vec3.normSq (Vector6.rotPart (computeMotionErrorVec aaZero nrmZero frameA frameB)) ≤ 1 :=
  ⟨(motionError_bounded aaZero nrmZero aaZero_contract nrmZero_contract frameA frameB).2.2.1,
   (motionError_bounded aaZero nrmZero aaZero_contract nrmZero_contract frameA frameB).2.2.2⟩

/-- C3: the twist producer sets the new target position to the last
published current-pose snapshot's position plus `twist.linear` and the
new target orientation to the roll-pitch-yaw quaternion built from
`twist.angular` left-multiplied onto the snapshot's orientation; in
particular, the twist `(dx=1, dy=0, dz=0, angular=0)` applied when the
snapshot is the origin with identity orientation yields target position
`(1,0,0)` with unchanged (identity) orientation. -/
theorem twistCallback_updates_target (c s : ℚ → ℚ) (snap : PoseMsg)
    (twist : TwistMsg) :
    (targetTwistCallback c s snap twist).p =
      Vec3.add ⟨snap.px, snap.py, snap.pz⟩ ⟨twist.lx, twist.ly, twist.lz⟩ ∧
    (targetTwistCallback c s snap twist).M =
      Rot.ofQuaternion
        (Quat.mul (setRPY c s twist.ax twist.ay twist.az)
          ⟨snap.qx, snap.qy, snap.qz, snap.qw⟩).x
        (Quat.mul (setRPY c s twist.ax twist.ay twist.az)
          ⟨snap.qx, snap.qy, snap.qz, snap.qw⟩).y
        (Quat.mul (setRPY c s twist.ax twist.ay twist.az)
          ⟨snap.qx, snap.qy, snap.qz, snap.qw⟩).z
        (Quat.mul (setRPY c s twist.ax twist.ay twist.az)
          ⟨snap.qx, snap.qy, snap.qz, snap.qw⟩).w ∧
    (c 0 = 1 → s 0 = 0 →
      targetTwistCallback c s poseMsgId twistX = ⟨Rot.id, ⟨1, 0, 0⟩⟩) := by
  refine ⟨rfl, rfl, ?_⟩
  intro hc hs
  have h0 : (0 : ℚ) * (1 / 2) = 0 := by norm_num
  simp only [targetTwistCallback, setRPY, twistX, poseMsgId, h0, hc, hs,
    Quat.mul, Rot.ofQuaternion]
  norm_num [Rot.id]

/-- Witness for C3: the concrete twist accumulation instance. -/
theorem twistCallback_updates_target_witness :
    targetTwistCallback cOne sZero poseMsgId twistX = ⟨Rot.id, ⟨1, 0, 0⟩⟩ :=
  (twistCallback_updates_target cOne sZero poseMsgId twistX).2.2 rfl rfl

/-- C4: an absolute-pose update whose `frame_id` differs from the
configured robot base frame is rejected — the target pose is left
unchanged and the (rate-limited) warning flag is the only observable
effect — while an update whose `frame_id` matches replaces the target
pose wholesale by the received pose. -/
theorem targetFrameCallback_filters (base : String) (msg : PoseStampedMsg)
    (old : Frame) :
    (msg.frame_id ≠ base → targetFrameCallback base msg old = (old, true)) ∧
    (msg.frame_id = base →
      targetFrameCallback base msg old = (Frame.ofPoseMsg msg.pose, false)) := by
  constructor
  · intro h
    simp [targetFrameCallback, h]
  · intro h
    simp [targetFrameCallback, h]

/-- Witness for C4: a rejected and an accepted concrete update. -/
theorem targetFrameCallback_filters_witness :
    targetFrameCallback "base_link" msgWrongFrame frameA = (frameA, true) ∧
    targetFrameCallback "base_link" msgRightFrame frameA =
      (Frame.ofPoseMsg msgRightFrame.pose, false) :=
  ⟨(targetFrameCallback_filters "base_link" msgWrongFrame frameA).1 (by decide),
   (targetFrameCallback_filters "base_link" msgRightFrame frameA).2 (by decide)⟩

/-- C5: immediately after `starting`, the target pose equals the current
end-effector pose reported by the forward-dynamics solver, and a
subsequent `computeMotionError` with the solver still reporting that same
(orthonormal) pose yields the zero 6D error vector. -/
theorem starting_seeds_target_zero_error (aa : Rot → Vec3 × ℚ)
    (nrm : Vec3 → Vec3 × ℚ) (poseToMsg : Frame → PoseMsg) (st : CtrlState)
    (ha : AxisAngleContract aa) (hn : NormalizeContract nrm)
    (horth : Rot.mul st.solverPose.M (Rot.transpose st.solverPose.M) = Rot.id) :
    (starting st).m_target_frame = st.solverPose ∧
    (computeMotionErrorS aa nrm poseToMsg (starting st)).1 = Vector6.zero := by
  refine ⟨rfl, ?_⟩
  show computeMotionErrorVec aa nrm st.solverPose st.solverPose = Vector6.zero
  refine motionErrorVec_eq_zero aa nrm ha hn _ _ horth ?_
  simp [Vec3.sub, Vec3.zero]

/-- Witness for C5: zero error after `starting` at a concrete state with
an orthonormal solver pose. -/
theorem starting_seeds_witness :
    (computeMotionErrorS aaZero nrmZero ptmZero (starting stateC)).1 = Vector6.zero :=
  (starting_seeds_target_zero_error aaZero nrmZero ptmZero stateC aaZero_contract
    nrmZero_contract
    (by norm_num [stateC, frameC, rot35, Rot.mul, Rot.transpose, Rot.id])).2

/-- C6: the generic `update` performs exactly `m_iterations`
recompute-error-and-forward-dynamics iterations, each with the fixed
internal period 0.02 s (1/50), followed by exactly one hardware write at
the end of the cycle; the velocity-interface specialization performs
exactly one such iteration with the same period before its single write. -/
theorem update_iteration_discipline {S : Type} (aa : Rot → Vec3 × ℚ)
    (nrm : Vec3 → Vec3 × ℚ) (pose : S → Frame) (step : S → Vector6 → ℚ → S)
    (target : Frame) (m_iterations : ℕ) (s sv : S) :
    (∃ pre : List CycleEvent,
      (update aa nrm pose step target m_iterations s).2 = pre ++ [CycleEvent.write] ∧
      pre.length = m_iterations ∧
      pre.all CycleEvent.isIterate = true ∧
      pre.all CycleEvent.dtIsInternal = true) ∧
    (update aa nrm pose step target m_iterations s).2.countP CycleEvent.isWrite = 1 ∧
    (updateVelocity aa nrm pose step target sv).2 =
      [CycleEvent.iterate (computeMotionErrorVec aa nrm (pose sv) target) (1 / 50),
       CycleEvent.write] := by
  obtain ⟨h1, h2, h3⟩ := updateIterations_trace aa nrm pose step target m_iterations s
  refine ⟨⟨(updateIterations aa nrm pose step target m_iterations s).2,
            rfl, h1, h2, h3⟩, ?_, rfl⟩
  show ((updateIterations aa nrm pose step target m_iterations s).2
          ++ [CycleEvent.write]).countP CycleEvent.isWrite = 1
  rw [List.countP_append, countP_isWrite_zero_of_all_iterate _ h2]
  simp [List.countP, List.countP.go, CycleEvent.isWrite]

/-- C7 counterexample: the absolute-pose producer accepts a pose whose
orientation quaternion is not unit — no rejection (the warning branch is
not taken) and no normalization — and the stored target rotation is not a
valid rotation (it is `4·I`, which is neither orthonormal nor of
determinant one). -/
theorem targetFrameCallback_accepts_malformed :
    (targetFrameCallback "base_link" msgBadQuat frameA).2 = false ∧
    ¬ Rot.isValidRotation ((targetFrameCallback "base_link" msgBadQuat frameA).1.M) := by
  constructor
  · decide
  · intro hvalid
    have hdet := hvalid.2
    norm_num [targetFrameCallback, msgBadQuat, Frame.ofPoseMsg, Rot.ofQuaternion,
      Rot.det] at hdet

/-- C7 amended: the producers perform no validation or normalization of
orientation input; the stored target rotation is the KDL matrix of the
raw quaternion, which is a valid rotation (orthonormal, determinant +1)
exactly when that quaternion is unit.  Whenever the incoming quaternion
(for the absolute-pose producer) or the product quaternion
`setRPY(angular) * snapshot` (for the twist producer) has unit norm, the
resulting target rotation is valid. -/
theorem producers_valid_rotation_of_unit_quaternion :
    (∀ (base : String) (msg : PoseStampedMsg) (old : Frame),
      msg.frame_id = base →
      msg.pose.qx * msg.pose.qx + msg.pose.qy * msg.pose.qy +
        msg.pose.qz * msg.pose.qz + msg.pose.qw * msg.pose.qw = 1 →
      Rot.isValidRotation ((targetFrameCallback base msg old).1.M)) ∧
    (∀ (c s : ℚ → ℚ) (snap : PoseMsg) (twist : TwistMsg),
      Quat.normSq (Quat.mul (setRPY c s twist.ax twist.ay twist.az)
        ⟨snap.qx, snap.qy, snap.qz, snap.qw⟩) = 1 →
      Rot.isValidRotation ((targetTwistCallback c s snap twist).M)) := by
  constructor
  · intro base msg old hf hu
    have hcb : targetFrameCallback base msg old = (Frame.ofPoseMsg msg.pose, false) := by
      simp [targetFrameCallback, hf]
    rw [hcb]
    exact ofQuaternion_valid _ _ _ _ hu
  · intro c s snap twist hu
    exact ofQuaternion_valid _ _ _ _ hu

/-- Witness for the amended C7: both producers at concrete unit
quaternions. -/
theorem producers_valid_rotation_witness :
    Rot.isValidRotation ((targetFrameCallback "base_link" msgUnitQuat frameA).1.M) ∧
    Rot.isValidRotation ((targetTwistCallback cOne sZero snapUnit twistZero).M) :=
  ⟨producers_valid_rotation_of_unit_quaternion.1 "base_link" msgUnitQuat frameA
      rfl (by norm_num [msgUnitQuat]),
   producers_valid_rotation_of_unit_quaternion.2 cOne sZero snapUnit twistZero
      (by norm_num [snapUnit, twistZero, setRPY, cOne, sZero, Quat.mul, Quat.normSq])⟩

/-- C8: degenerate geometry yields a zero contribution without failure:
if the relative rotation is the exact identity the emitted rotation part
is the zero vector, and if the relative translation is the exact zero
vector the emitted translation part is the zero vector (the embedding is
total by construction — no division is performed in the controller
itself). -/
theorem degenerate_inputs_zero_contribution (aa : Rot → Vec3 × ℚ)
    (nrm : Vec3 → Vec3 × ℚ) (ha : AxisAngleContract aa)
    (hn : NormalizeContract nrm) (current target : Frame) :
    (Rot.mul target.M (Rot.transpose current.M) = Rot.id →
      Vector6.rotPart (computeMotionErrorVec aa nrm current target) = Vec3.zero) ∧
    (Vec3.sub target.p current.p = Vec3.zero →
      Vector6.transPart (computeMotionErrorVec aa nrm current target) = Vec3.zero) := by
  constructor
  · intro hM
    rw [rotPart_motionError, (ha _).2.2 hM, clamp_zero_unit, Vec3.smul_zero_eq]
  · intro hp
    rw [transPart_motionError, (hn _).2.2 hp, clamp_zero_unit, Vec3.smul_zero_eq]

/-- Witness for C8: identity relative rotation and zero relative
translation at concrete poses. -/
theorem degenerate_inputs_witness :
    Vector6.rotPart (computeMotionErrorVec aaZero nrmZero frameC frameD) = Vec3.zero ∧
    Vector6.transPart (computeMotionErrorVec aaZero nrmZero frameC frameE) = Vec3.zero :=
  ⟨(degenerate_inputs_zero_contribution aaZero nrmZero aaZero_contract
      nrmZero_contract frameC frameD).1
      (by norm_num [frameC, frameD, rot35, Rot.mul, Rot.transpose, Rot.id]),
   (degenerate_inputs_zero_contribution aaZero nrmZero aaZero_contract
      nrmZero_contract frameC frameE).2
      (by norm_num [frameC, frameE, Vec3.sub, Vec3.zero])⟩

/-- C9: `computeMotionError` is deterministic in its inputs: two runs
from controller states with the same solver-reported end-effector pose
and the same target pose return the same 6D error vector, whatever the
other state components (snapshots, timestamps, publication history). -/
theorem motionError_deterministic (aa : Rot → Vec3 × ℚ) (nrm : Vec3 → Vec3 × ℚ)
    (poseToMsg : Frame → PoseMsg) (s1 s2 : CtrlState)
    (hpose : s1.solverPose = s2.solverPose)
    (htgt : s1.m_target_frame = s2.m_target_frame) :
    (computeMotionErrorS aa nrm poseToMsg s1).1 =
      (computeMotionErrorS aa nrm poseToMsg s2).1 := by
  show computeMotionErrorVec aa nrm s1.solverPose s1.m_target_frame =
    computeMotionErrorVec aa nrm s2.solverPose s2.m_target_frame
  rw [hpose, htgt]

/-- Witness for C9: two concrete states agreeing only on solver pose and
target produce the same error. -/
theorem motionError_deterministic_witness :
    (computeMotionErrorS aaZero nrmZero ptmZero stateA).1 =
      (computeMotionErrorS aaZero nrmZero ptmZero stateB).1 :=
  motionError_deterministic aaZero nrmZero ptmZero stateA stateB rfl rfl
